import Mathlib

/-!
Verification development for the match-expression parser
(`src/src/mongo/db/matcher/expression_parser.cpp`).

The development shallowly embeds the BSON value model, the match-expression
AST and the recursive-descent parser.  Pure C++ functions become Lean
functions; `StatusWith<T>` becomes `Except ParseError T`; `BSONObj` becomes a
list of (field name, value) pairs in stored order; machine integer narrowing
(`BSONElement::numberInt`, an `int32_t` projection) is modelled with an
explicit wrap-around at 2^32.

Functions of the repository that are not part of the given source file
(the value model's `getGtLtOp`, `_parseNot`, `_parseTreeList`, the depth
constant, the type alias map, `BSONObj::toString` and the always-path-valid
node constructors) are modelled from the specification; each such definition
carries a doc comment starting with "Modelled from the spec:".
-/

/-! ## BSON value model -/

/-- The BSON type tags used by the parser (the value model's type enum).
`eoo` is the end-of-object sentinel returned by `firstElement` of an empty
document. -/
inductive BSONType where
  | double
  | string
  | object
  | array
  | binData
  | oid
  | boolT
  | date
  | nullT
  | regex
  | int32
  | timestamp
  | int64
  | minKey
  | maxKey
  | undefined
  | eoo
  deriving Repr, DecidableEq

/-- A BSON value.  Doubles are modelled as exact rationals (the parser only
ever truncates them to integers or compares them with integer projections).
A document is its ordered field list; a BSON array is iterated by the parser
exactly like a document whose field names are indices, and since no code
path reads an array element's field name we keep only the values. -/
inductive BSONValue where
  | double (q : ℚ)
  | str (s : String)
  | obj (fields : List (String × BSONValue))
  | arr (elems : List BSONValue)
  | binData
  | oid
  | boolV (b : Bool)
  | date (millis : Int)
  | nullV
  | regexV (pattern : String) (flags : String)
  | intV (n : Int)
  | timestamp
  | longV (n : Int)
  | minKey
  | maxKey
  | undef
  | eoo
  deriving Repr

/-- A BSON document: the ordered list of its (field name, value) pairs. -/
abbrev BSONObj := List (String × BSONValue)

/-- The type tag of a value (`BSONElement::type`). -/
def BSONValue.btype : BSONValue → BSONType
  | .double _ => .double
  | .str _ => .string
  | .obj _ => .object
  | .arr _ => .array
  | .binData => .binData
  | .oid => .oid
  | .boolV _ => .boolT
  | .date _ => .date
  | .nullV => .nullT
  | .regexV _ _ => .regex
  | .intV _ => .int32
  | .timestamp => .timestamp
  | .longV _ => .int64
  | .minKey => .minKey
  | .maxKey => .maxKey
  | .undef => .undefined
  | .eoo => .eoo

/-- `BSONElement::isNumber`: NumberDouble, NumberInt or NumberLong. -/
def BSONValue.isNumber (v : BSONValue) : Bool :=
  v.btype == .double || v.btype == .int32 || v.btype == .int64

/-- `BSONElement::isABSONObj`: embedded document or array. -/
def BSONValue.isABSONObj (v : BSONValue) : Bool :=
  v.btype == .object || v.btype == .array

/-- Wrap an integer into the `int32_t` range, the effect of the C++
narrowing conversions performed by `BSONElement::numberInt`. -/
def wrap32 (n : Int) : Int :=
  (n + 2 ^ 31) % 2 ^ 32 - 2 ^ 31

/-- Truncation of a rational toward zero, the effect of the C++
double-to-integer conversion. -/
def ratTrunc (q : ℚ) : Int :=
  Int.tdiv q.num q.den

/-- `BSONElement::numberLong`: the 64-bit integer projection (doubles are
truncated toward zero; non-numeric types give 0). -/
def BSONValue.numberLong : BSONValue → Int
  | .intV n => n
  | .longV n => n
  | .double q => ratTrunc q
  | _ => 0

/-- `BSONElement::numberInt`: the `int32_t` projection (longs and truncated
doubles are narrowed to 32 bits; non-numeric types give 0). -/
def BSONValue.numberInt : BSONValue → Int
  | .intV n => wrap32 n
  | .longV n => wrap32 n
  | .double q => wrap32 (ratTrunc q)
  | _ => 0

/-- `BSONElement::numberDouble` (called `number` here): the exact numeric
value; non-numeric types give 0. -/
def BSONValue.number : BSONValue → ℚ
  | .intV n => (n : ℚ)
  | .longV n => (n : ℚ)
  | .double q => q
  | _ => 0

/-- `BSONElement::trueValue`: numbers are truthy iff nonzero, booleans are
themselves, EOO/Null/Undefined are falsy, everything else is truthy. -/
def BSONValue.trueValue : BSONValue → Bool
  | .boolV b => b
  | .intV n => !(n == 0)
  | .longV n => !(n == 0)
  | .double q => !(q == 0)
  | .nullV => false
  | .undef => false
  | .eoo => false
  | _ => true

/-- Field name of `BSONObj::firstElement` ("" for an empty document, whose
first element is EOO). -/
def BSONObj.firstFieldName : BSONObj → String
  | [] => ""
  | (k, _) :: _ => k

/-- Value of `BSONObj::firstElement` (EOO for an empty document). -/
def BSONObj.firstValue : BSONObj → BSONValue
  | [] => .eoo
  | (_, v) :: _ => v

/-- The C++ check `fieldName[0] == \x27$\x27` (false for the empty name,
whose first read byte is the NUL terminator). -/
def dollarPrefixed (k : String) : Bool :=
  match k.data with
  | [] => false
  | c :: _ => c == '$'

mutual

/-- Modelled from the spec: a rendering of a value for error messages
(`BSONObj::toString` lives in the value model, outside the given source).
No claim depends on the rendered text; the parser only splices it into
depth-limit error messages. -/
def BSONValue.toStr : BSONValue → String
  | .double q => toString q
  | .str s => "\x22" ++ s ++ "\x22"
  | .obj o => "\x7b " ++ BSONObj.toStrFields o ++ " \x7d"
  | .arr es => "[ " ++ BSONValue.toStrList es ++ " ]"
  | .binData => "BinData"
  | .oid => "ObjectId"
  | .boolV b => toString b
  | .date n => "new Date(" ++ toString n ++ ")"
  | .nullV => "null"
  | .regexV p f => "/" ++ p ++ "/" ++ f
  | .intV n => toString n
  | .timestamp => "Timestamp"
  | .longV n => toString n
  | .minKey => "MinKey"
  | .maxKey => "MaxKey"
  | .undef => "undefined"
  | .eoo => "EOO"
termination_by v => sizeOf v

/-- Field list rendering for `BSONValue.toStr`. -/
def BSONObj.toStrFields : List (String × BSONValue) → String
  | [] => ""
  | [(k, v)] => k ++ ": " ++ BSONValue.toStr v
  | (k, v) :: rest => k ++ ": " ++ BSONValue.toStr v ++ ", " ++ BSONObj.toStrFields rest
termination_by o => sizeOf o

/-- Element list rendering for `BSONValue.toStr`. -/
def BSONValue.toStrList : List BSONValue → String
  | [] => ""
  | [v] => BSONValue.toStr v
  | v :: rest => BSONValue.toStr v ++ ", " ++ BSONValue.toStrList rest
termination_by es => sizeOf es

end

/-- Modelled from the spec: document rendering for error messages. -/
def BSONObj.toStr (o : BSONObj) : String :=
  "\x7b " ++ BSONObj.toStrFields o ++ " \x7d"

/-! ## Extended operator codes (the value model's `BSONObj::MatchType`) -/

namespace BSONOp

def Equality : Int := 0
def LT : Int := 1
def LTE : Int := 2
def GTE : Int := 3
def GT : Int := 4
def opIN : Int := 5
def NE : Int := 6
def opSIZE : Int := 7
def opALL : Int := 8
def NIN : Int := 9
def opEXISTS : Int := 10
def opMOD : Int := 11
def opTYPE : Int := 12
def opREGEX : Int := 13
def opOPTIONS : Int := 14
def opELEM_MATCH : Int := 15
def opWITHIN : Int := 16
def opGEO_INTERSECTS : Int := 17

end BSONOp

/-- Modelled from the spec: the value model's extended-operator lookup
(`BSONElement::getGtLtOp`), mapping a field name to an operator code or the
supplied default.  The spec lists the recognized tokens (section 6); the new
keywords `$eq`, `$not` and `$where` are absent and are handled by the parser
through string comparison. -/
def getGtLtOp (fieldName : String) (dflt : Int) : Int :=
  if fieldName == "$lt" then BSONOp.LT
  else if fieldName == "$lte" then BSONOp.LTE
  else if fieldName == "$gte" then BSONOp.GTE
  else if fieldName == "$gt" then BSONOp.GT
  else if fieldName == "$in" then BSONOp.opIN
  else if fieldName == "$ne" then BSONOp.NE
  else if fieldName == "$size" then BSONOp.opSIZE
  else if fieldName == "$all" then BSONOp.opALL
  else if fieldName == "$nin" then BSONOp.NIN
  else if fieldName == "$exists" then BSONOp.opEXISTS
  else if fieldName == "$mod" then BSONOp.opMOD
  else if fieldName == "$type" then BSONOp.opTYPE
  else if fieldName == "$regex" then BSONOp.opREGEX
  else if fieldName == "$options" then BSONOp.opOPTIONS
  else if fieldName == "$elemMatch" then BSONOp.opELEM_MATCH
  else if fieldName == "$within" then BSONOp.opWITHIN
  else if fieldName == "$geoIntersects" then BSONOp.opGEO_INTERSECTS
  else dflt

/-! ## Match expression AST -/

/-- The AST node kinds (`MatchExpression::MatchType`). -/
inductive MatchType where
  | AND
  | OR
  | NOR
  | NOT
  | EQ
  | LT
  | LTE
  | GT
  | GTE
  | REGEX
  | MOD
  | EXISTS
  | MATCH_IN
  | SIZE
  | TYPE_OPERATOR
  | ELEM_MATCH_OBJECT
  | ELEM_MATCH_VALUE
  | ATOMIC
  | FALSE
  | WHERE
  | TEXT
  | GEO
  deriving Repr, DecidableEq

/-- The match-expression tree.  Leaves carry their field path; logical nodes
carry an ordered child list.  `IN` keeps its equality values and its regex
entries (as pattern/flags pairs) separately, mirroring `ArrayFilterEntries`.
The plug-in leaves `whereE`, `textE` and `geoE` are the nodes produced by
the registered callbacks; their payloads are opaque to the parser. -/
inductive MatchExpression where
  | eqE (path : String) (v : BSONValue)
  | ltE (path : String) (v : BSONValue)
  | lteE (path : String) (v : BSONValue)
  | gtE (path : String) (v : BSONValue)
  | gteE (path : String) (v : BSONValue)
  | notE (child : MatchExpression)
  | andE (children : List MatchExpression)
  | orE (children : List MatchExpression)
  | norE (children : List MatchExpression)
  | inE (path : String) (equalities : List BSONValue) (regexes : List (String × String))
  | regexE (path : String) (pattern : String) (options : String)
  | sizeE (path : String) (n : Int)
  | existsE (path : String)
  | typeE (path : String) (t : Int)
  | modE (path : String) (divisor : Int) (remainder : Int)
  | elemMatchValueE (path : String) (children : List MatchExpression)
  | elemMatchObjectE (path : String) (child : MatchExpression)
  | atomicE
  | falseE
  | whereE (code : String)
  | textE (query : String)
  | geoE (path : String) (data : String)
  deriving Repr

/-- `MatchExpression::matchType`. -/
def MatchExpression.matchType : MatchExpression → MatchType
  | .eqE _ _ => .EQ
  | .ltE _ _ => .LT
  | .lteE _ _ => .LTE
  | .gtE _ _ => .GT
  | .gteE _ _ => .GTE
  | .notE _ => .NOT
  | .andE _ => .AND
  | .orE _ => .OR
  | .norE _ => .NOR
  | .inE _ _ _ => .MATCH_IN
  | .regexE _ _ _ => .REGEX
  | .sizeE _ _ => .SIZE
  | .existsE _ => .EXISTS
  | .typeE _ _ => .TYPE_OPERATOR
  | .modE _ _ _ => .MOD
  | .elemMatchValueE _ _ => .ELEM_MATCH_VALUE
  | .elemMatchObjectE _ _ => .ELEM_MATCH_OBJECT
  | .atomicE => .ATOMIC
  | .falseE => .FALSE
  | .whereE _ => .WHERE
  | .textE _ => .TEXT
  | .geoE _ _ => .GEO

mutual

/-- `hasNode(root, type)` from the anonymous namespace: true iff the subtree
rooted at `root` contains a node of kind `t` (the root's own kind is checked
first, then the children `root->getChild(i)` in order). -/
def hasNode (t : MatchType) : MatchExpression → Bool
  | .notE c => t == MatchType.NOT || hasNode t c
  | .andE cs => t == MatchType.AND || hasNodeList t cs
  | .orE cs => t == MatchType.OR || hasNodeList t cs
  | .norE cs => t == MatchType.NOR || hasNodeList t cs
  | .elemMatchValueE _ cs => t == MatchType.ELEM_MATCH_VALUE || hasNodeList t cs
  | .elemMatchObjectE _ c => t == MatchType.ELEM_MATCH_OBJECT || hasNode t c
  | m => t == m.matchType
termination_by m => sizeOf m

/-- Child-list traversal for `hasNode`. -/
def hasNodeList (t : MatchType) : List MatchExpression → Bool
  | [] => false
  | c :: rest => hasNode t c || hasNodeList t rest
termination_by cs => sizeOf cs

end

/-! ## Statuses and callbacks -/

/-- The error codes surfaced by the parser. -/
inductive ErrorCode where
  | BadValue
  | TypeMismatch
  | NoWhereParseContext
  deriving Repr, DecidableEq

/-- A failed `Status`: an error code plus a human-readable message. -/
structure ParseError where
  code : ErrorCode
  msg : String
  deriving Repr

/-- `StatusWith<T>`: either a value or a `ParseError`. -/
abbrev StatusWith (α : Type) := Except ParseError α

/-- The pluggable sub-parsers: geo, full-text and where.  In the source these
are the global callback slots `expressionParserGeoCallback`,
`expressionParserTextCallback` and the parser's `_whereCallback` member. -/
structure Callbacks where
  geoCallback : String → Int → BSONObj → StatusWith MatchExpression
  textCallback : BSONObj → StatusWith MatchExpression
  whereCallback : String → BSONValue → StatusWith MatchExpression

/-- The default callbacks: `expressionParserGeoCallbackDefault`,
`expressionParserTextCallbackDefault` and `WhereCallback::parseWhere`. -/
def defaultCallbacks : Callbacks where
  geoCallback := fun _ _ _ => .error ⟨.BadValue, "geo not linked in"⟩
  textCallback := fun _ => .error ⟨.BadValue, "$text not linked in"⟩
  whereCallback := fun _ _ => .error ⟨.NoWhereParseContext, "no context for parsing $where"⟩

/-- Modelled from the spec: the compile-time recursion bound
`MatchExpressionParser::kMaximumTreeDepth` is declared in the parser header,
outside the given source; the spec recommends 100. -/
def kMaximumTreeDepth : Nat := 100

namespace MatchExpressionParser

/-! ## DBRef and expression-document detection -/

/-- The field scan of `_isDBRefDocument`: walks the document accumulating
hasRef/hasID/hasDB flags, stopping early once both `$ref` and `$id` were
seen. -/
def dbrefScan : List (String × BSONValue) → Bool → Bool → Bool → Bool × Bool × Bool
  | [], hasRef, hasID, hasDB => (hasRef, hasID, hasDB)
  | (k, _) :: rest, hasRef, hasID, hasDB =>
    if hasRef && hasID then (hasRef, hasID, hasDB)
    else if !hasRef && k == "$ref" then dbrefScan rest true hasID hasDB
    else if !hasID && k == "$id" then dbrefScan rest hasRef true hasDB
    else if !hasDB && k == "$db" then dbrefScan rest hasRef hasID true
    else dbrefScan rest hasRef hasID hasDB

/-- `_isDBRefDocument`: contains `$ref` and `$id` (strict), or any of
`$ref`/`$id`/`$db` when incomplete DBRefs are allowed.  Field names only;
types are not checked. -/
def _isDBRefDocument (o : BSONObj) (allowIncompleteDBRef : Bool) : Bool :=
  let s := dbrefScan o false false false
  if allowIncompleteDBRef then s.1 || s.2.1 || s.2.2
  else s.1 && s.2.1

/-- `_isExpressionDocument`: a non-empty embedded document whose first field
name starts with a dollar sign and which is not a DBRef. -/
def _isExpressionDocument (v : BSONValue) (allowIncompleteDBRef : Bool) : Bool :=
  match v with
  | .obj o =>
    if o.isEmpty then false
    else if !(dollarPrefixed (BSONObj.firstFieldName o)) then false
    else if _isDBRefDocument o allowIncompleteDBRef then false
    else true
  | _ => false

/-! ## Leaf parsers without recursion into the tree -/

/-- Which comparison node `_parseComparison` is asked to build. -/
inductive CompOp where
  | ceq
  | clt
  | clte
  | cgt
  | cgte
  deriving Repr, DecidableEq

/-- The comparison node built by `_parseComparison` on success. -/
def compNode (op : CompOp) (name : String) (v : BSONValue) : MatchExpression :=
  match op with
  | .ceq => .eqE name v
  | .clt => .ltE name v
  | .clte => .lteE name v
  | .cgt => .gtE name v
  | .cgte => .gteE name v

/-- `_parseComparison`: a non-equality comparison rejects a regex argument;
otherwise the node is built.  (`ComparisonMatchExpression::init` only
validates the path, which is out of scope per the spec, so it is modelled as
always succeeding.) -/
def _parseComparison (name : String) (op : CompOp) (v : BSONValue) :
    StatusWith MatchExpression :=
  if !(op == CompOp.ceq) && v.btype == BSONType.regex then
    .error ⟨.BadValue,
      "Can\x27t have RegEx as arg to predicate over field \x27" ++ name ++ "\x27."⟩
  else .ok (compNode op name v)

/-- `_parseMOD`.  The argument must be a two-element array of numbers.  The
source's second numeric check re-tests the divisor `d` instead of the
remainder `r` (lines 509-510); the embedding reproduces that faithfully. -/
def _parseMOD (name : String) (v : BSONValue) : StatusWith MatchExpression :=
  match v with
  | .arr es =>
    match es with
    | [] => .error ⟨.BadValue, "malformed mod, not enough elements"⟩
    | d :: rest =>
      if !d.isNumber then .error ⟨.BadValue, "malformed mod, divisor not a number"⟩
      else
        match rest with
        | [] => .error ⟨.BadValue, "malformed mod, not enough elements"⟩
        | r :: rest2 =>
          if !d.isNumber then .error ⟨.BadValue, "malformed mod, remainder not a number"⟩
          else if !rest2.isEmpty then .error ⟨.BadValue, "malformed mod, too many elements"⟩
          else .ok (.modE name d.numberInt r.numberInt)
  | _ => .error ⟨.BadValue, "malformed mod, needs to be an array"⟩

/-- `_parseRegexElement`: a native regex value becomes a REGEX node. -/
def _parseRegexElement (name : String) (v : BSONValue) : StatusWith MatchExpression :=
  match v with
  | .regexV p f => .ok (.regexE name p f)
  | _ => .error ⟨.BadValue, "not a regex"⟩

/-- The collecting loop of `_parseRegexDocument`: walks the sub-document
keeping the pattern and options gathered so far. -/
def regexDocScan : List (String × BSONValue) → String → String →
    StatusWith (String × String)
  | [], pat, opts => .ok (pat, opts)
  | (k, v) :: rest, pat, opts =>
    let op := getGtLtOp k BSONOp.Equality
    if op == BSONOp.opREGEX then
      match v with
      | .str s => regexDocScan rest s opts
      | .regexV p f => regexDocScan rest p f
      | _ => .error ⟨.BadValue, "$regex has to be a string"⟩
    else if op == BSONOp.opOPTIONS then
      match v with
      | .str s => regexDocScan rest pat s
      | _ => .error ⟨.BadValue, "$options has to be a string"⟩
    else regexDocScan rest pat opts

/-- `_parseRegexDocument`: collect at most one `$regex` and one `$options`
from the sub-document and build the REGEX node; other keys are ignored
here. -/
def _parseRegexDocument (name : String) (doc : BSONObj) : StatusWith MatchExpression :=
  match regexDocScan doc "" "" with
  | .error e => .error e
  | .ok (p, o) => .ok (.regexE name p o)

/-- `_parseArrayFilterEntries` for `$in`/`$nin`: expression documents are
rejected, regexes go to the regex entries (with an empty path), everything
else is an equality entry. -/
def _parseArrayFilterEntries :
    List BSONValue → StatusWith (List BSONValue × List (String × String))
  | [] => .ok ([], [])
  | v :: rest =>
    if _isExpressionDocument v false then
      .error ⟨.BadValue, "cannot nest $ under $in"⟩
    else
      match v with
      | .regexV p f =>
        match _parseArrayFilterEntries rest with
        | .error e => .error e
        | .ok (eqs, rxs) => .ok (eqs, (p, f) :: rxs)
      | _ =>
        match _parseArrayFilterEntries rest with
        | .error e => .error e
        | .ok (eqs, rxs) => .ok (v :: eqs, rxs)

/-- Modelled from the spec: `TypeMatchExpression::typeAliasMap`, the static
case-sensitive alias table maintained by the AST node (outside the given
source).  The spec names these aliases in section 4.7. -/
def typeAliasMap : List (String × Int) :=
  [("number", 1), ("double", 1), ("string", 2), ("object", 3), ("array", 4),
   ("bool", 8), ("null", 10), ("regex", 11), ("int", 16), ("timestamp", 17),
   ("long", 18)]

/-- `_parseType`: a numeric argument is projected to `int32` (demoted to -1
when a non-`int32` number does not equal its projection exactly); a string
argument is looked up in the alias map. -/
def _parseType (name : String) (v : BSONValue) : StatusWith MatchExpression :=
  if !v.isNumber && !(v.btype == BSONType.string) then
    .error ⟨.TypeMismatch, "argument to $type is not a number or a string"⟩
  else if v.isNumber then
    let t := v.numberInt
    let t2 := if !(v.btype == BSONType.int32) && !((t : ℚ) == v.number) then (-1 : Int) else t
    .ok (.typeE name t2)
  else
    match v with
    | .str s =>
      match typeAliasMap.lookup s with
      | some t => .ok (.typeE name t)
      | none => .error ⟨.BadValue, "unknown string alias for $type: " ++ s⟩
    | _ => .error ⟨.TypeMismatch, "argument to $type is not a number or a string"⟩

/-- The scalar loop of `_parseAll`: regex elements become REGEX nodes,
embedded documents whose first key carries a recognized operator code are
rejected, everything else becomes an EQ node. -/
def _parseAllScalarList (name : String) : List BSONValue → StatusWith (List MatchExpression)
  | [] => .ok []
  | v :: rest =>
    match v with
    | .regexV p f =>
      match _parseAllScalarList name rest with
      | .error e => .error e
      | .ok ms => .ok (.regexE name p f :: ms)
    | .obj o =>
      if !(getGtLtOp (BSONObj.firstFieldName o) (-1) == -1) then
        .error ⟨.BadValue, "no $ expressions in $all"⟩
      else
        match _parseAllScalarList name rest with
        | .error e => .error e
        | .ok ms => .ok (.eqE name (.obj o) :: ms)
    | _ =>
      match _parseAllScalarList name rest with
      | .error e => .error e
      | .ok ms => .ok (.eqE name v :: ms)

/-- The `$all : [ \x7b $elemMatch ... \x7d ]` dialect trigger: the first
array element is a document whose first key is `$elemMatch`. -/
def allElemMatchForm (es : List BSONValue) : Bool :=
  match es with
  | .obj o :: _ => BSONObj.firstFieldName o == "$elemMatch"
  | _ => false

/-- The `$elemMatch` value-dialect condition: the argument is an expression
document in loose DBRef mode whose first key is none of `$and`, `$nor`,
`$or`, `$where`. -/
def isElemMatchValueCond (o : BSONObj) : Bool :=
  _isExpressionDocument (.obj o) true &&
    (!(BSONObj.firstFieldName o == "$and") && !(BSONObj.firstFieldName o == "$nor") &&
      !(BSONObj.firstFieldName o == "$or") && !(BSONObj.firstFieldName o == "$where"))

end MatchExpressionParser

namespace MatchExpressionParser

/-! ## Non-recursive slices of the dispatchers

The two dispatch bodies below are the parts of `_parse`'s element loop and of
`_parseSubField` that never re-enter the recursive descent; they are split
out of the mutual block so that each mutually recursive function stays
small.  Branch order within each original if-chain is preserved; hoisting
the recursive branches out is sound because every branch of those chains is
guarded by a distinct key string or operator code. -/

/-- The top-level reserved-operator cases of `_parse` (lines 302-338) that do
not recurse: `$atomic`/`$isolated` (top level only; truthy appends ATOMIC),
`$where` and `$text` (callback dispatch), `$comment` (skipped),
`$ref`/`$id`/`$db` (plain equality on the dollar-named field), and the
unknown-operator error. -/
def _parseTopLeaf (cb : Callbacks) (k : String) (v : BSONValue) (topLevel : Bool) :
    StatusWith (List MatchExpression) :=
  if k == "$atomic" || k == "$isolated" then
    if !topLevel then
      .error ⟨.BadValue, "$atomic/$isolated has to be at the top level"⟩
    else if v.trueValue then .ok [.atomicE]
    else .ok []
  else if k == "$where" then
    match cb.whereCallback k v with
    | .error e => .error e
    | .ok m => .ok [m]
  else if k == "$text" then
    match v with
    | .obj o =>
      match cb.textCallback o with
      | .error e => .error e
      | .ok m => .ok [m]
    | _ => .error ⟨.BadValue, "$text expects an object"⟩
  else if k == "$comment" then .ok []
  else if k == "$ref" || k == "$id" || k == "$db" then
    .ok [.eqE k v]
  else
    .error ⟨.BadValue, "unknown top level operator: " ++ k⟩

/-- The non-recursive cases of `_parseSubField` (lines 88-256): `$eq`, the
comparison codes, `$ne`, `$in`/`$nin`, `$size`, `$exists`, `$type`, `$mod`,
`$options`, `$regex`, the geo codes, `$where`-under-a-field and the
unknown-operator errors.  The `$not`, `$elemMatch` and `$all` cases are
handled by `_parseSubField` itself before delegating here. -/
def _parseSubFieldLeaf (cb : Callbacks) (context : BSONObj) (name : String) (k : String)
    (v : BSONValue) : StatusWith (Option MatchExpression) :=
  if k == "$eq" then
    match _parseComparison name CompOp.ceq v with
    | .error e => .error e
    | .ok m => .ok (some m)
  else
    let x := getGtLtOp k (-1)
    if x == -1 then
      if k == "$where" then
        .error ⟨.BadValue, "$where cannot be applied to a field"⟩
      else .error ⟨.BadValue, "unknown operator: " ++ k⟩
    else if x == BSONOp.LT then
      match _parseComparison name CompOp.clt v with
      | .error e => .error e
      | .ok m => .ok (some m)
    else if x == BSONOp.LTE then
      match _parseComparison name CompOp.clte v with
      | .error e => .error e
      | .ok m => .ok (some m)
    else if x == BSONOp.GT then
      match _parseComparison name CompOp.cgt v with
      | .error e => .error e
      | .ok m => .ok (some m)
    else if x == BSONOp.GTE then
      match _parseComparison name CompOp.cgte v with
      | .error e => .error e
      | .ok m => .ok (some m)
    else if x == BSONOp.NE then
      if v.btype == BSONType.regex then
        .error ⟨.BadValue, "Can\x27t have regex as arg to $ne."⟩
      else
        match _parseComparison name CompOp.ceq v with
        | .error e => .error e
        | .ok m => .ok (some (.notE m))
    else if x == BSONOp.Equality then
      match _parseComparison name CompOp.ceq v with
      | .error e => .error e
      | .ok m => .ok (some m)
    else if x == BSONOp.opIN then
      match v with
      | .arr es =>
        match _parseArrayFilterEntries es with
        | .error e => .error e
        | .ok (eqs, rxs) => .ok (some (.inE name eqs rxs))
      | _ => .error ⟨.BadValue, "$in needs an array"⟩
    else if x == BSONOp.NIN then
      match v with
      | .arr es =>
        match _parseArrayFilterEntries es with
        | .error e => .error e
        | .ok (eqs, rxs) => .ok (some (.notE (.inE name eqs rxs)))
      | _ => .error ⟨.BadValue, "$nin needs an array"⟩
    else if x == BSONOp.opSIZE then
      if v.btype == BSONType.string then .ok (some (.sizeE name 0))
      else if v.btype == BSONType.int32 || v.btype == BSONType.int64 then
        if v.numberLong < 0 then .ok (some (.sizeE name (-1)))
        else .ok (some (.sizeE name v.numberInt))
      else if v.btype == BSONType.double then
        if (v.numberInt : ℚ) == v.number then .ok (some (.sizeE name v.numberInt))
        else .ok (some (.sizeE name (-1)))
      else .error ⟨.BadValue, "$size needs a number"⟩
    else if x == BSONOp.opEXISTS then
      if v.btype == BSONType.eoo then .error ⟨.BadValue, "$exists can\x27t be eoo"⟩
      else if v.trueValue then .ok (some (.existsE name))
      else .ok (some (.notE (.existsE name)))
    else if x == BSONOp.opTYPE then
      match _parseType name v with
      | .error e => .error e
      | .ok m => .ok (some m)
    else if x == BSONOp.opMOD then
      match _parseMOD name v with
      | .error e => .error e
      | .ok m => .ok (some m)
    else if x == BSONOp.opOPTIONS then
      if context.any (fun kv => getGtLtOp kv.1 (-1) == BSONOp.opREGEX) then .ok none
      else .error ⟨.BadValue, "$options needs a $regex"⟩
    else if x == BSONOp.opREGEX then
      match _parseRegexDocument name context with
      | .error e => .error e
      | .ok m => .ok (some m)
    else if x == BSONOp.opWITHIN || x == BSONOp.opGEO_INTERSECTS then
      match cb.geoCallback name x context with
      | .error e => .error e
      | .ok m => .ok (some m)
    else .error ⟨.BadValue, "not handled: " ++ k⟩

/-! ## The recursive descent -/

mutual

/-- `MatchExpressionParser::_parse` (lines 258-374): depth check, then the
top-level loop accumulating children of an implicit AND, then the collapse
rule — exactly one accumulated child is returned unwrapped, any other count
returns the AND itself. -/
def _parse (cb : Callbacks) (obj : BSONObj) (level : Nat) : StatusWith MatchExpression :=
  if level > kMaximumTreeDepth then
    .error ⟨.BadValue,
      "exceeded maximum query tree depth of " ++ toString kMaximumTreeDepth ++
        " at " ++ BSONObj.toStr obj⟩
  else
    match _parseTopList cb obj (level == 0) (level + 1) with
    | .error e => .error e
    | .ok cs => .ok (match cs with | [c] => c | _ => .andE cs)
termination_by (sizeOf obj, 9)

/-- The element loop of `_parse` (lines 271-365): each element contributes
zero, one, or (via `_parseSub`) several children of the implicit AND, in
stored order.  `topLevel` is the `level == 0` flag captured before the
increment; `level` here is the already incremented depth. -/
def _parseTopList (cb : Callbacks) (elems : BSONObj) (topLevel : Bool) (level : Nat) :
    StatusWith (List MatchExpression) :=
  match elems with
  | [] => .ok []
  | (k, v) :: rest =>
    match _parseTopElement cb k v topLevel level with
    | .error e => .error e
    | .ok hs =>
      match _parseTopList cb rest topLevel level with
      | .error e => .error e
      | .ok cs => .ok (hs ++ cs)
termination_by (sizeOf elems, 8)

/-- One element of the top-level loop (lines 273-364).  A dollar-prefixed
key dispatches on the reserved operator (the source strips the leading
dollar and compares the remainder; comparing the whole key is equivalent
under the dollar-prefix guard); the `$or`/`$and`/`$nor` cases recurse via
`_parseTreeList`, the rest is `_parseTopLeaf`.  A plain key yields an
expression-document descent, a top-level regex, or an equality. -/
def _parseTopElement (cb : Callbacks) (k : String) (v : BSONValue) (topLevel : Bool)
    (level : Nat) : StatusWith (List MatchExpression) :=
  if dollarPrefixed k then
    if k == "$or" then
      match v with
      | .arr es =>
        match _parseTreeList cb es level with
        | .error e => .error e
        | .ok ts => .ok [.orE ts]
      | _ => .error ⟨.BadValue, "$or needs an array"⟩
    else if k == "$and" then
      match v with
      | .arr es =>
        match _parseTreeList cb es level with
        | .error e => .error e
        | .ok ts => .ok [.andE ts]
      | _ => .error ⟨.BadValue, "and needs an array"⟩
    else if k == "$nor" then
      match v with
      | .arr es =>
        match _parseTreeList cb es level with
        | .error e => .error e
        | .ok ts => .ok [.norE ts]
      | _ => .error ⟨.BadValue, "and needs an array"⟩
    else _parseTopLeaf cb k v topLevel
  else
    match v with
    | .obj o =>
      if _isExpressionDocument (.obj o) false then
        _parseSub cb k o level
      else .ok [.eqE k (.obj o)]
    | .regexV p f =>
      match _parseRegexElement k (.regexV p f) with
      | .error e => .error e
      | .ok m => .ok [m]
    | _ => .ok [.eqE k v]
termination_by (sizeOf v, 8)

/-- Modelled from the spec: `_parseTreeList` (referenced at lines 282, 290,
298 but defined outside the given source) parses each item of a `$or`,
`$and` or `$nor` array as a nested top-level predicate. -/
def _parseTreeList (cb : Callbacks) (es : List BSONValue) (level : Nat) :
    StatusWith (List MatchExpression) :=
  match es with
  | [] => .ok []
  | .obj o :: rest =>
    match _parse cb o level with
    | .error e => .error e
    | .ok m =>
      match _parseTreeList cb rest level with
      | .error e => .error e
      | .ok ms => .ok (m :: ms)
  | _ :: _ => .error ⟨.BadValue, "$or/$and/$nor entries need to be full objects"⟩
termination_by (sizeOf es, 7)

/-- `MatchExpressionParser::_parseSub` (lines 376-432): depth check, depth
increment, the geo first-element peek (an embedded document or array whose
key is one of the five geo operators routes the whole sub-document to the
geo callback), then the per-key loop.  The children destined for the
caller's AND are returned as a list. -/
def _parseSub (cb : Callbacks) (name : String) (sub : BSONObj) (level : Nat) :
    StatusWith (List MatchExpression) :=
  if level > kMaximumTreeDepth then
    .error ⟨.BadValue,
      "exceeded maximum query tree depth of " ++ toString kMaximumTreeDepth ++
        " at " ++ BSONObj.toStr sub⟩
  else
    let k0 := BSONObj.firstFieldName sub
    let v0 := BSONObj.firstValue sub
    if v0.isABSONObj &&
        (k0 == "$near" || k0 == "$nearSphere" || k0 == "$geoNear" ||
          k0 == "$maxDistance" || k0 == "$minDistance") then
      match cb.geoCallback name (getGtLtOp k0 BSONOp.Equality) sub with
      | .error e => .error e
      | .ok m => .ok [m]
    else _parseSubList cb sub sub name (level + 1)
termination_by (sizeOf sub, 6)

/-- The per-key loop of `_parseSub` (lines 419-429): null results (the
`$options` case) are skipped, others are appended in order. -/
def _parseSubList (cb : Callbacks) (context : BSONObj) (elems : BSONObj) (name : String)
    (level : Nat) : StatusWith (List MatchExpression) :=
  match elems with
  | [] => .ok []
  | (k, v) :: rest =>
    match _parseSubField cb context name k v level with
    | .error e => .error e
    | .ok r =>
      match _parseSubList cb context rest name level with
      | .error e => .error e
      | .ok cs => .ok (match r with | some m => m :: cs | none => cs)
termination_by (sizeOf elems, 5)

/-- `MatchExpressionParser::_parseSubField` (lines 88-256): the per-operator
dispatcher.  The recursive cases — `$not` (by name), `$elemMatch` and `$all`
(by operator code) — are handled here; every other case is the
non-recursive `_parseSubFieldLeaf`.  The source also receives the
accumulated AND but never reads it, so that parameter is omitted.  A
`.ok none` result is the source's null expression (skip). -/
def _parseSubField (cb : Callbacks) (context : BSONObj) (name : String) (k : String)
    (v : BSONValue) (level : Nat) : StatusWith (Option MatchExpression) :=
  if k == "$not" then
    match _parseNot cb name v level with
    | .error e => .error e
    | .ok m => .ok (some m)
  else if getGtLtOp k (-1) == BSONOp.opELEM_MATCH then
    match _parseElemMatch cb name v level with
    | .error e => .error e
    | .ok m => .ok (some m)
  else if getGtLtOp k (-1) == BSONOp.opALL then
    match _parseAll cb name v level with
    | .error e => .error e
    | .ok m => .ok (some m)
  else _parseSubFieldLeaf cb context name k v
termination_by (sizeOf v, 4)

/-- Modelled from the spec: `_parseNot` (called at line 99, defined outside
the given source).  Per spec section 4.5 the argument must be a regex
(wrapped into REGEX under NOT) or a non-empty expression document without
logical operators, parsed like a `_parseSub` body into a synthetic AND that
becomes the child of NOT. -/
def _parseNot (cb : Callbacks) (name : String) (v : BSONValue) (level : Nat) :
    StatusWith MatchExpression :=
  match v with
  | .regexV p f => .ok (.notE (.regexE name p f))
  | .obj o =>
    if o.isEmpty then .error ⟨.BadValue, "$not cannot be empty"⟩
    else if o.any (fun kv => kv.1 == "$and" || kv.1 == "$or" || kv.1 == "$nor") then
      .error ⟨.BadValue, "$not cannot contain logical operators"⟩
    else
      match _parseSub cb name o level with
      | .error e => .error e
      | .ok cs => .ok (.notE (.andE cs))
  | _ => .error ⟨.BadValue, "$not needs a regex or a document"⟩
termination_by (sizeOf v, 3)

/-- `MatchExpressionParser::_parseElemMatch` (lines 638-712): the value
dialect collects the children of a synthetic AND parsed against the empty
path; the object dialect parses a full nested predicate and rejects any
subtree containing a WHERE node. -/
def _parseElemMatch (cb : Callbacks) (name : String) (v : BSONValue) (level : Nat) :
    StatusWith MatchExpression :=
  match v with
  | .obj o =>
    if isElemMatchValueCond o then
      match _parseSub cb "" o level with
      | .error e => .error e
      | .ok cs => .ok (.elemMatchValueE name cs)
    else
      match _parse cb o level with
      | .error e => .error e
      | .ok sub =>
        if hasNode MatchType.WHERE sub then
          .error ⟨.BadValue, "$elemMatch cannot contain $where expression"⟩
        else .ok (.elemMatchObjectE name sub)
  | _ => .error ⟨.BadValue, "$elemMatch needs an Object"⟩
termination_by (sizeOf v, 3)

/-- `MatchExpressionParser::_parseAll` (lines 714-780): the `$elemMatch`
dialect when the first array element is a document whose first key is
`$elemMatch`, otherwise the scalar loop; an empty scalar result collapses to
FALSE. -/
def _parseAll (cb : Callbacks) (name : String) (v : BSONValue) (level : Nat) :
    StatusWith MatchExpression :=
  match v with
  | .arr es =>
    if allElemMatchForm es then
      match _parseAllEMList cb name es level with
      | .error e => .error e
      | .ok cs => .ok (.andE cs)
    else
      match _parseAllScalarList name es with
      | .error e => .error e
      | .ok cs => if cs.isEmpty then .ok .falseE else .ok (.andE cs)
  | _ => .error ⟨.BadValue, "$all needs an array"⟩
termination_by (sizeOf v, 3)

/-- The `$elemMatch`-dialect loop of `_parseAll` (lines 729-749): every
element must be a document whose first key is `$elemMatch`; each first
element is handed to `_parseElemMatch`. -/
def _parseAllEMList (cb : Callbacks) (name : String) (es : List BSONValue) (level : Nat) :
    StatusWith (List MatchExpression) :=
  match es with
  | [] => .ok []
  | .obj ((k0, v0) :: _) :: rest =>
    if !(k0 == "$elemMatch") then
      .error ⟨.BadValue, "$all/$elemMatch has to be consistent"⟩
    else
      match _parseElemMatch cb name v0 level with
      | .error e => .error e
      | .ok m =>
        match _parseAllEMList cb name rest level with
        | .error e => .error e
        | .ok ms => .ok (m :: ms)
  | .obj [] :: _ => .error ⟨.BadValue, "$all/$elemMatch has to be consistent"⟩
  | _ :: _ => .error ⟨.BadValue, "$all/$elemMatch has to be consistent"⟩
termination_by (sizeOf es, 2)

end

/-- Modelled from the spec: the sole public entry point starts the descent
at depth 0. -/
def parse (cb : Callbacks) (obj : BSONObj) : StatusWith MatchExpression :=
  _parse cb obj 0

end MatchExpressionParser

/-! ## Definitions used by the claim statements -/

namespace MatchExpressionParser

/-- Callbacks with a linked-in `$where` parser that returns a WHERE node, as
a registered where-callback would. -/
def whereLinkedCallbacks : Callbacks :=
  { defaultCallbacks with whereCallback := fun _ _ => .ok (.whereE "w") }

/-- Spec-side description of one scalar `$all` element (claim C9, following
the specification's words): a regex becomes a REGEX child, an embedded
document whose first key carries a recognized extended-operator code is
rejected, anything else becomes an EQ child. -/
def allScalarChildSpec (name : String) (v : BSONValue) : StatusWith MatchExpression :=
  match v with
  | .regexV p f => .ok (.regexE name p f)
  | .obj o =>
    if getGtLtOp (BSONObj.firstFieldName o) (-1) == -1 then .ok (.eqE name (.obj o))
    else .error ⟨.BadValue, "no $ expressions in $all"⟩
  | _ => .ok (.eqE name v)


/-- Spec-side sequencing of `allScalarChildSpec` over the array, in order,
stopping at the first error (claim C9). -/
def allScalarSpecList (name : String) : List BSONValue → StatusWith (List MatchExpression)
  | [] => .ok []
  | v :: rest =>
    match allScalarChildSpec name v with
    | .error e => .error e
    | .ok m =>
      match allScalarSpecList name rest with
      | .error e => .error e
      | .ok ms => .ok (m :: ms)

/-- Spec-side well-typedness of one element of a regex sub-document (claim
C10): a `$regex` value must be a string or a native regex, a `$options`
value must be a string, any other key is unconstrained. -/
def regexDocOK (kv : String × BSONValue) : Bool :=
  if kv.1 == "$regex" then kv.2.btype == .string || kv.2.btype == .regex
  else if kv.1 == "$options" then kv.2.btype == .string
  else true

/-- A plain (non-dollar) literal document nested to the given depth. -/
def litNest : Nat → BSONValue
  | 0 => .intV 1
  | n + 1 => .obj [("b", litNest n)]

/-- A `$or` predicate nested to the given depth. -/
def orNest : Nat → BSONObj
  | 0 => [("a", .intV 1)]
  | n + 1 => [("$or", .arr [.obj (orNest n)])]

end MatchExpressionParser

mutual

/-- Document-nesting depth of a value: documents and arrays add one level
over the deepest member, scalars have depth zero. -/
def BSONValue.docDepth : BSONValue → Nat
  | .obj o => 1 + BSONObj.docDepthMax o
  | .arr es => 1 + BSONValue.docDepthMaxList es
  | _ => 0
termination_by v => sizeOf v

/-- Deepest member of a field list. -/
def BSONObj.docDepthMax : List (String × BSONValue) → Nat
  | [] => 0
  | (_, v) :: rest => max (BSONValue.docDepth v) (BSONObj.docDepthMax rest)
termination_by o => sizeOf o

/-- Deepest member of an element list. -/
def BSONValue.docDepthMaxList : List BSONValue → Nat
  | [] => 0
  | v :: rest => max (BSONValue.docDepth v) (BSONValue.docDepthMaxList rest)
termination_by es => sizeOf es

end

namespace MatchExpressionParser

/-! ## Helper lemmas about the operator lookup -/

/-- The extended-operator lookup sends a key to `opREGEX` exactly for
`$regex`, whenever the supplied default is not `opREGEX` itself. -/
theorem getGtLtOp_eq_opREGEX (k : String) (dflt : Int)
    (h : (dflt == BSONOp.opREGEX) = false) :
    (getGtLtOp k dflt == BSONOp.opREGEX) = (k == "$regex") := by
  by_cases hk : k = "$regex"
  · subst hk
    simp +decide [getGtLtOp]
  · have hr : (k == "$regex") = false := beq_eq_false_iff_ne.mpr hk
    unfold getGtLtOp
    simp +decide [hr, h, apply_ite (· == BSONOp.opREGEX), ite_self]

/-- The extended-operator lookup sends a key to `opOPTIONS` exactly for
`$options`, whenever the supplied default is not `opOPTIONS` itself. -/
theorem getGtLtOp_eq_opOPTIONS (k : String) (dflt : Int)
    (h : (dflt == BSONOp.opOPTIONS) = false) :
    (getGtLtOp k dflt == BSONOp.opOPTIONS) = (k == "$options") := by
  by_cases hk : k = "$options"
  · subst hk
    simp +decide [getGtLtOp]
  · have hr : (k == "$options") = false := beq_eq_false_iff_ne.mpr hk
    unfold getGtLtOp
    simp +decide [hr, h, apply_ite (· == BSONOp.opOPTIONS), ite_self]

/-! ## C1 -/

/-- Claim C1: after the top-level loop accumulates the implicit AND's
children, exactly one accumulated child is returned unwrapped as the root,
and any other count (zero or two-or-more) returns the AND node itself. -/
theorem C1_implicit_and_collapse (cb : Callbacks) (obj : BSONObj) (level : Nat)
    (cs : List MatchExpression) (hd : ¬ level > kMaximumTreeDepth)
    (h : _parseTopList cb obj (level == 0) (level + 1) = .ok cs) :
    (∀ c, cs = [c] → _parse cb obj level = .ok c) ∧
      (cs.length ≠ 1 → _parse cb obj level = .ok (.andE cs)) := by
  rw [_parse, if_neg hd, h]
  constructor
  · rintro c rfl
    rfl
  · intro hlen
    match cs, hlen with
    | [], _ => rfl
    | _ :: _ :: _, _ => rfl

/-- Witness for C1: one accumulated child collapses to that child, zero and
two children keep the AND node. -/
theorem C1_implicit_and_collapse_witness :
    _parse defaultCallbacks [("a", BSONValue.intV 1)] 0 = .ok (.eqE "a" (.intV 1))
    ∧ _parse defaultCallbacks [] 0 = .ok (.andE [])
    ∧ _parse defaultCallbacks [("a", BSONValue.intV 1), ("b", BSONValue.intV 2)] 0 =
        .ok (.andE [.eqE "a" (.intV 1), .eqE "b" (.intV 2)]) := by
  refine ⟨?_, ?_, ?_⟩
  · exact (C1_implicit_and_collapse defaultCallbacks _ 0 [.eqE "a" (.intV 1)] (by decide)
      (by simp +decide [_parseTopList, _parseTopElement, _isExpressionDocument])).1 _ rfl
  · exact (C1_implicit_and_collapse defaultCallbacks _ 0 [] (by decide)
      (by simp [_parseTopList])).2 (by simp)
  · exact (C1_implicit_and_collapse defaultCallbacks _ 0
      [.eqE "a" (.intV 1), .eqE "b" (.intV 2)] (by decide)
      (by simp +decide [_parseTopList, _parseTopElement, _isExpressionDocument])).2 (by simp)

/-! ## C2 -/

/-- Claim C2 (code bug): for a two-element `$mod` array whose first element
is a number, the parser succeeds and builds the MOD node even when the
second element is not a number — the second numeric check at line 509
re-tests the divisor `d`, so the remainder error at line 510 is
unreachable. -/
theorem C2_mod_remainder_unchecked (name : String) (d v : BSONValue)
    (hd : d.isNumber = true) (_hv : v.isNumber = false) :
    _parseMOD name (.arr [d, v]) = .ok (.modE name d.numberInt v.numberInt) := by
  simp [_parseMOD, hd]

/-- Witness for C2: the `$mod` argument `[5, "x"]` parses to `MOD(a, 5, 0)`
instead of producing the specified remainder error. -/
theorem C2_mod_remainder_unchecked_witness :
    _parseMOD "a" (.arr [.intV 5, .str "x"]) = .ok (.modE "a" 5 0) := by
  have h := C2_mod_remainder_unchecked "a" (.intV 5) (.str "x") (by decide) (by decide)
  simpa [BSONValue.numberInt, wrap32] using h

/-! ## C7 -/

/-- Claim C7: the `$options` dispatcher case emits no node (null result,
skipped by the sub-document loop) exactly when some sibling key of the
enclosing sub-document is `$regex`, in either order; otherwise it returns
the `$options needs a $regex` error.  The closed conjuncts check the two
orders end to end and the missing-sibling error. -/
theorem C7_options_requires_sibling_regex :
    (∀ cb ctx name v level,
      _parseSubField cb ctx name "$options" v level =
        if ctx.any (fun kv => kv.1 == "$regex") then .ok none
        else .error ⟨.BadValue, "$options needs a $regex"⟩)
    ∧ parse defaultCallbacks
        [("a", .obj [("$regex", .str "x"), ("$options", .str "i")])] =
        .ok (.regexE "a" "x" "i")
    ∧ parse defaultCallbacks
        [("a", .obj [("$options", .str "i"), ("$regex", .str "x")])] =
        .ok (.regexE "a" "x" "i")
    ∧ parse defaultCallbacks [("a", .obj [("$options", .str "i")])] =
        .error ⟨.BadValue, "$options needs a $regex"⟩ := by
  refine ⟨?_, ?_, ?_, ?_⟩
  · intro cb ctx name v level
    rw [_parseSubField]
    have hfun : (fun kv : String × BSONValue => getGtLtOp kv.1 (-1) == BSONOp.opREGEX) =
        (fun kv => kv.1 == "$regex") :=
      funext fun kv => getGtLtOp_eq_opREGEX kv.1 (-1) (by decide)
    simp +decide [_parseSubFieldLeaf]
    rw [hfun]
  · have h : _parseTopList defaultCallbacks
        [("a", .obj [("$regex", .str "x"), ("$options", .str "i")])] true 1 =
        .ok [.regexE "a" "x" "i"] := by
      simp +decide [_parseTopList, _parseTopElement, _parseSub, _parseSubList, _parseSubField,
        _parseSubFieldLeaf, _parseRegexDocument, regexDocScan, kMaximumTreeDepth,
        _isExpressionDocument, _isDBRefDocument, dbrefScan,
        BSONValue.isABSONObj, BSONValue.btype, BSONObj.firstFieldName, BSONObj.firstValue]
    rw [parse, _parse, if_neg (by decide)]
    norm_num [h]
  · have h : _parseTopList defaultCallbacks
        [("a", .obj [("$options", .str "i"), ("$regex", .str "x")])] true 1 =
        .ok [.regexE "a" "x" "i"] := by
      simp +decide [_parseTopList, _parseTopElement, _parseSub, _parseSubList, _parseSubField,
        _parseSubFieldLeaf, _parseRegexDocument, regexDocScan, kMaximumTreeDepth,
        _isExpressionDocument, _isDBRefDocument, dbrefScan,
        BSONValue.isABSONObj, BSONValue.btype, BSONObj.firstFieldName, BSONObj.firstValue]
    rw [parse, _parse, if_neg (by decide)]
    norm_num [h]
  · have h : _parseTopList defaultCallbacks
        [("a", .obj [("$options", .str "i")])] true 1 =
        .error ⟨.BadValue, "$options needs a $regex"⟩ := by
      simp +decide [_parseTopList, _parseTopElement, _parseSub, _parseSubList, _parseSubField,
        _parseSubFieldLeaf, kMaximumTreeDepth,
        _isExpressionDocument, _isDBRefDocument, dbrefScan,
        BSONValue.isABSONObj, BSONValue.btype, BSONObj.firstFieldName, BSONObj.firstValue]
    rw [parse, _parse, if_neg (by decide)]
    norm_num [h]

/-! ## C8 -/

/-- Claim C8: `$atomic`/`$isolated` are only permitted at depth 0.  At top
level a truthy value appends an ATOMIC leaf (collapsing to the leaf itself
for a one-element predicate) and a falsy value appends nothing; at any
positive depth within bounds the same element is a BadValue error; as a
sub-field operator it is an unknown-operator BadValue error; nested under
`$or` the end-to-end parse fails. -/
theorem C8_atomic_isolated_top_level_only (cb : Callbacks) (v : BSONValue) (k : String)
    (hk : k = "$atomic" ∨ k = "$isolated") :
    (v.trueValue = true → parse cb [(k, v)] = .ok .atomicE)
    ∧ (v.trueValue = false → parse cb [(k, v)] = .ok (.andE []))
    ∧ (∀ rest level, 1 ≤ level → level ≤ kMaximumTreeDepth →
        _parse cb ((k, v) :: rest) level =
          .error ⟨.BadValue, "$atomic/$isolated has to be at the top level"⟩)
    ∧ (∀ ctx name level, _parseSubField cb ctx name k v level =
        .error ⟨.BadValue, "unknown operator: " ++ k⟩)
    ∧ parse defaultCallbacks [("$or", .arr [.obj [("$atomic", .boolV true)]])] =
        .error ⟨.BadValue, "$atomic/$isolated has to be at the top level"⟩ := by
  refine ⟨?_, ?_, ?_, ?_, ?_⟩
  · intro ht
    have hel : _parseTopElement cb k v true 1 = .ok [.atomicE] := by
      rcases hk with rfl | rfl <;> cases v <;>
        simp_all +decide [_parseTopElement, _parseTopLeaf, BSONValue.trueValue]
    have h : _parseTopList cb [(k, v)] true 1 = .ok [.atomicE] := by
      simp [_parseTopList, hel]
    rw [parse, _parse, if_neg (by decide)]
    norm_num [h]
  · intro ht
    have hel : _parseTopElement cb k v true 1 = .ok [] := by
      rcases hk with rfl | rfl <;> cases v <;>
        simp_all +decide [_parseTopElement, _parseTopLeaf, BSONValue.trueValue]
    have h : _parseTopList cb [(k, v)] true 1 = .ok [] := by
      simp [_parseTopList, hel]
    rw [parse, _parse, if_neg (by decide)]
    norm_num [h]
  · intro rest level h1 h2
    have ht : (level == 0) = false := by
      simp only [beq_eq_false_iff_ne]
      omega
    have hel : _parseTopElement cb k v false (level + 1) =
        .error ⟨.BadValue, "$atomic/$isolated has to be at the top level"⟩ := by
      rcases hk with rfl | rfl <;> cases v <;>
        simp +decide [_parseTopElement, _parseTopLeaf]
    rw [_parse, if_neg (by omega), ht, _parseTopList, hel]
  · intro ctx name level
    rcases hk with rfl | rfl <;> cases v <;>
      simp +decide [_parseSubField, _parseSubFieldLeaf]
  · have hin : _parse defaultCallbacks [("$atomic", .boolV true)] 1 =
        .error ⟨.BadValue, "$atomic/$isolated has to be at the top level"⟩ := by
      have h2 : _parseTopList defaultCallbacks [("$atomic", .boolV true)] false 2 =
          .error ⟨.BadValue, "$atomic/$isolated has to be at the top level"⟩ := by
        simp +decide [_parseTopList, _parseTopElement, _parseTopLeaf]
      rw [_parse, if_neg (by decide)]
      simp [h2]
    have h : _parseTopList defaultCallbacks
        [("$or", .arr [.obj [("$atomic", .boolV true)]])] true 1 =
        .error ⟨.BadValue, "$atomic/$isolated has to be at the top level"⟩ := by
      simp +decide [_parseTopList, _parseTopElement, _parseTreeList, hin]
    rw [parse, _parse, if_neg (by decide)]
    norm_num [h]

/-- Witness for C8 at concrete truthy/falsy values and depths. -/
theorem C8_atomic_isolated_top_level_only_witness :
    parse defaultCallbacks [("$atomic", .boolV true)] = .ok .atomicE
    ∧ parse defaultCallbacks [("$isolated", .intV 0)] = .ok (.andE [])
    ∧ _parse defaultCallbacks [("$atomic", .boolV true)] 1 =
        .error ⟨.BadValue, "$atomic/$isolated has to be at the top level"⟩
    ∧ _parseSubField defaultCallbacks [] "a" "$atomic" (.boolV true) 1 =
        .error ⟨.BadValue, "unknown operator: $atomic"⟩ := by
  refine ⟨?_, ?_, ?_, ?_⟩
  · exact (C8_atomic_isolated_top_level_only defaultCallbacks (.boolV true) "$atomic"
      (Or.inl rfl)).1 rfl
  · exact (C8_atomic_isolated_top_level_only defaultCallbacks (.intV 0) "$isolated"
      (Or.inr rfl)).2.1 (by decide)
  · exact (C8_atomic_isolated_top_level_only defaultCallbacks (.boolV true) "$atomic"
      (Or.inl rfl)).2.2.1 [] 1 (by decide) (by decide)
  · have := (C8_atomic_isolated_top_level_only defaultCallbacks (.boolV true) "$atomic"
      (Or.inl rfl)).2.2.2.1 [] "a" 1
    simpa using this

end MatchExpressionParser

namespace MatchExpressionParser

/-! ## C5 -/

/-- Claim C5: in the `$elemMatch` object dialect, once the argument parses
successfully, a resulting subtree containing a WHERE node anywhere is
rejected with the dedicated BadValue error. -/
theorem C5_elemMatch_rejects_where (cb : Callbacks) (name : String) (o : BSONObj)
    (level : Nat) (sub : MatchExpression)
    (hform : isElemMatchValueCond o = false)
    (hparse : _parse cb o level = .ok sub)
    (hwhere : hasNode MatchType.WHERE sub = true) :
    _parseElemMatch cb name (.obj o) level =
      .error ⟨.BadValue, "$elemMatch cannot contain $where expression"⟩ := by
  rw [_parseElemMatch]
  simp [hform, hparse, hwhere]

/-- With the linked-in `$where` callback, the bare `$where` document parses
to the WHERE node. -/
theorem whereLinked_parse_where :
    _parse whereLinkedCallbacks [("$where", .str "x")] 2 = .ok (.whereE "w") := by
  have h : _parseTopList whereLinkedCallbacks [("$where", .str "x")] false 3 =
      .ok [.whereE "w"] := by
    simp +decide [_parseTopList, _parseTopElement, _parseTopLeaf, whereLinkedCallbacks,
      defaultCallbacks]
  rw [_parse, if_neg (by decide)]
  simp [h]

/-- The `$elemMatch` rejection propagates through the sub-document loop. -/
theorem whereLinked_sub_elemMatch
    (hem : _parseElemMatch whereLinkedCallbacks "a" (.obj [("$where", .str "x")]) 2 =
      .error ⟨.BadValue, "$elemMatch cannot contain $where expression"⟩) :
    _parseSub whereLinkedCallbacks "a"
      [("$elemMatch", .obj [("$where", .str "x")])] 1 =
      .error ⟨.BadValue, "$elemMatch cannot contain $where expression"⟩ := by
  rw [_parseSub, if_neg (by decide)]
  simp +decide [_parseSubList, _parseSubField, BSONObj.firstFieldName, BSONObj.firstValue,
    BSONValue.isABSONObj, BSONValue.btype, hem]

/-- The `$elemMatch` rejection propagates through the top-level loop. -/
theorem whereLinked_top_elemMatch
    (hsub : _parseSub whereLinkedCallbacks "a"
      [("$elemMatch", .obj [("$where", .str "x")])] 1 =
      .error ⟨.BadValue, "$elemMatch cannot contain $where expression"⟩) :
    _parseTopList whereLinkedCallbacks
      [("a", .obj [("$elemMatch", .obj [("$where", .str "x")])])] true 1 =
      .error ⟨.BadValue, "$elemMatch cannot contain $where expression"⟩ := by
  simp +decide [_parseTopList, _parseTopElement, _isExpressionDocument, _isDBRefDocument,
    dbrefScan, BSONObj.firstFieldName, hsub]


/-- Witness for C5, with a linked-in `$where` callback: the dispatcher-level
rejection and the end-to-end parse failure for `$where` under
`$elemMatch`. -/
theorem C5_elemMatch_rejects_where_witness :
    _parseElemMatch whereLinkedCallbacks "a" (.obj [("$where", .str "x")]) 2 =
      .error ⟨.BadValue, "$elemMatch cannot contain $where expression"⟩
    ∧ parse whereLinkedCallbacks
        [("a", .obj [("$elemMatch", .obj [("$where", .str "x")])])] =
      .error ⟨.BadValue, "$elemMatch cannot contain $where expression"⟩ := by
  have hem := C5_elemMatch_rejects_where whereLinkedCallbacks "a" [("$where", .str "x")] 2
    (.whereE "w") (by decide) whereLinked_parse_where
    (by simp +decide [hasNode, MatchExpression.matchType])
  refine ⟨hem, ?_⟩
  have htop := whereLinked_top_elemMatch (whereLinked_sub_elemMatch hem)
  have hd : ¬ (0 : Nat) > kMaximumTreeDepth := by decide
  rw [parse, _parse, if_neg hd]
  norm_num [htop]

end MatchExpressionParser

namespace MatchExpressionParser

/-- The scalar loop of `$all` agrees element-by-element with the spec-side
description `allScalarChildSpec`. -/
theorem parseAllScalarList_eq_spec (name : String) (es : List BSONValue) :
    _parseAllScalarList name es = allScalarSpecList name es := by
  induction es with
  | nil => rfl
  | cons v rest ih =>
    cases v <;>
      simp [_parseAllScalarList, allScalarSpecList, allScalarChildSpec, ih] <;>
      split <;>
      simp

/-- Claim C9: when a `$all` array is not in the `$elemMatch` dialect, each
element is parsed by the scalar rule — a regex becomes a REGEX child, an
embedded document with a recognized leading operator is rejected, anything
else becomes an EQ child — and an empty result collapses to FALSE while a
non-empty one becomes the AND of the children in order. -/
theorem C9_all_scalar_form (cb : Callbacks) (name : String) (level : Nat) :
    (∀ es, allElemMatchForm es = false →
      _parseAll cb name (.arr es) level =
        match allScalarSpecList name es with
        | .error e => .error e
        | .ok cs => if cs.isEmpty then .ok .falseE else .ok (.andE cs))
    ∧ _parseAll cb name (.arr [.obj [("$eq", .intV 5)]]) level =
        .ok (.andE [.eqE name (.obj [("$eq", .intV 5)])])
    ∧ _parseAll cb name (.arr [.obj [("$where", .str "f")]]) level =
        .ok (.andE [.eqE name (.obj [("$where", .str "f")])])
    ∧ _parseAll cb name (.arr [.obj [("$gt", .intV 5)]]) level =
        .error ⟨.BadValue, "no $ expressions in $all"⟩ := by
  have main : ∀ es, allElemMatchForm es = false →
      _parseAll cb name (.arr es) level =
        match allScalarSpecList name es with
        | .error e => .error e
        | .ok cs => if cs.isEmpty then .ok .falseE else .ok (.andE cs) := by
    intro es hform
    rw [_parseAll, hform, parseAllScalarList_eq_spec, if_neg (show ¬ false = true from by decide)]
    all_goals rfl
  refine ⟨main, ?_, ?_, ?_⟩ <;>
    · rw [main _ (by decide)]
      simp +decide [allScalarSpecList, allScalarChildSpec, BSONObj.firstFieldName]

/-- Witness for C9's universal part at a two-element scalar array and the
empty array (FALSE collapse). -/
theorem C9_all_scalar_form_witness :
    _parseAll defaultCallbacks "a" (.arr [.regexV "p" "i", .intV 7]) 1 =
      .ok (.andE [.regexE "a" "p" "i", .eqE "a" (.intV 7)])
    ∧ _parseAll defaultCallbacks "a" (.arr []) 1 = .ok .falseE := by
  constructor
  · rw [(C9_all_scalar_form defaultCallbacks "a" 1).1 [.regexV "p" "i", .intV 7] (by decide)]
    simp +decide [allScalarSpecList, allScalarChildSpec]
  · rw [(C9_all_scalar_form defaultCallbacks "a" 1).1 [] (by decide)]
    simp [allScalarSpecList]

end MatchExpressionParser

namespace MatchExpressionParser

/-- Scanning past a prefix of well-typed elements only updates the
accumulated pattern and options. -/
theorem regexDocScan_skip_ok_prefix :
    ∀ (pre : List (String × BSONValue)), (∀ kv ∈ pre, regexDocOK kv = true) →
      ∀ (l : List (String × BSONValue)) (pat opts : String),
        ∃ p2 o2, regexDocScan (pre ++ l) pat opts = regexDocScan l p2 o2 := by
  intro pre
  induction pre with
  | nil => exact fun _ l pat opts => ⟨pat, opts, rfl⟩
  | cons kv rest ih =>
    intro hall l pat opts
    obtain ⟨k, v⟩ := kv
    have hk : regexDocOK (k, v) = true := hall (k, v) (List.mem_cons_self _ _)
    have hrest : ∀ kv ∈ rest, regexDocOK kv = true :=
      fun kv hm => hall kv (List.mem_cons_of_mem _ hm)
    by_cases h1 : (k == "$regex") = true
    · have hv : (v.btype == BSONType.string || v.btype == BSONType.regex) = true := by
        simpa [regexDocOK, h1] using hk
      cases v <;> first
        | (exfalso
           simp [BSONValue.btype] at hv
           done)
        | (rw [List.cons_append]
           simp only [regexDocScan]
           simp only [getGtLtOp_eq_opREGEX k BSONOp.Equality (by decide)]
           rw [if_pos h1]
           exact ih hrest l _ _)
    · by_cases h2 : (k == "$options") = true
      · have hv : (v.btype == BSONType.string) = true := by
          simpa [regexDocOK, h1, h2] using hk
        cases v <;> first
          | (exfalso
             simp [BSONValue.btype] at hv
             done)
          | (rw [List.cons_append]
             simp only [regexDocScan]
             simp only [getGtLtOp_eq_opREGEX k BSONOp.Equality (by decide),
               getGtLtOp_eq_opOPTIONS k BSONOp.Equality (by decide)]
             rw [if_neg h1, if_pos h2]
             exact ih hrest l _ _)
      · cases v <;>
          (rw [List.cons_append]
           simp only [regexDocScan]
           simp only [getGtLtOp_eq_opREGEX k BSONOp.Equality (by decide),
             getGtLtOp_eq_opOPTIONS k BSONOp.Equality (by decide)]
           rw [if_neg h1, if_neg h2]
           exact ih hrest l pat opts)

/-- Any error produced by the regex-document scan is a BadValue with one of
the two type-error messages. -/
theorem regexDocScan_error_shape :
    ∀ (doc : List (String × BSONValue)) (pat opts : String) (err : ParseError),
      regexDocScan doc pat opts = .error err →
        err.code = .BadValue ∧
          (err.msg = "$regex has to be a string" ∨ err.msg = "$options has to be a string") := by
  intro doc
  induction doc with
  | nil =>
    intro pat opts err h
    exact absurd h (by simp [regexDocScan])
  | cons kv rest ih =>
    intro pat opts err h
    obtain ⟨k, v⟩ := kv
    by_cases h1 : (getGtLtOp k BSONOp.Equality == BSONOp.opREGEX) = true
    · cases v <;> simp only [regexDocScan] at h <;> rw [if_pos h1] at h <;> first
        | exact ih _ _ _ h
        | (injection h with h
           subst h
           exact ⟨rfl, Or.inl rfl⟩)
    · by_cases h2 : (getGtLtOp k BSONOp.Equality == BSONOp.opOPTIONS) = true
      · cases v <;> simp only [regexDocScan] at h <;> rw [if_neg h1, if_pos h2] at h <;> first
          | exact ih _ _ _ h
          | (injection h with h
             subst h
             exact ⟨rfl, Or.inr rfl⟩)
      · cases v <;> simp only [regexDocScan] at h <;> rw [if_neg h1, if_neg h2] at h <;>
          exact ih _ _ _ h

end MatchExpressionParser

namespace MatchExpressionParser

/-- Claim C10: in regex assembly over a sub-document, a `$regex` element
that is neither a string nor a native regex yields the BadValue error
`$regex has to be a string`, a non-string `$options` element yields the
BadValue error `$options has to be a string`, and elements under any other
key never cause an error there (a document of well-typed elements always
assembles). -/
theorem C10_regex_document_type_errors (name : String) :
    (∀ doc, (∀ kv ∈ doc, regexDocOK kv = true) →
      ∃ m, _parseRegexDocument name doc = .ok m)
    ∧ (∀ doc err, _parseRegexDocument name doc = .error err →
        err.code = .BadValue ∧
          (err.msg = "$regex has to be a string" ∨ err.msg = "$options has to be a string"))
    ∧ (∀ pre v rest, (∀ kv ∈ pre, regexDocOK kv = true) →
        v.btype ≠ BSONType.string → v.btype ≠ BSONType.regex →
        _parseRegexDocument name (pre ++ ("$regex", v) :: rest) =
          .error ⟨.BadValue, "$regex has to be a string"⟩)
    ∧ (∀ pre v rest, (∀ kv ∈ pre, regexDocOK kv = true) →
        v.btype ≠ BSONType.string →
        _parseRegexDocument name (pre ++ ("$options", v) :: rest) =
          .error ⟨.BadValue, "$options has to be a string"⟩) := by
  refine ⟨?_, ?_, ?_, ?_⟩
  · intro doc hall
    obtain ⟨p2, o2, hs⟩ := regexDocScan_skip_ok_prefix doc hall [] "" ""
    rw [List.append_nil] at hs
    rw [_parseRegexDocument, hs]
    exact ⟨.regexE name p2 o2, rfl⟩
  · intro doc err h
    rw [_parseRegexDocument] at h
    cases hs : regexDocScan doc "" "" with
    | error e =>
      rw [hs] at h
      injection h with h
      subst h
      exact regexDocScan_error_shape doc "" "" _ hs
    | ok r =>
      rw [hs] at h
      exact absurd h (by cases r; simp)
  · intro pre v rest hpre hvs hvr
    obtain ⟨p2, o2, hs⟩ := regexDocScan_skip_ok_prefix pre hpre (("$regex", v) :: rest) "" ""
    rw [_parseRegexDocument, hs]
    cases v <;> simp_all [BSONValue.btype] <;>
      (simp only [regexDocScan]
       rw [if_pos (by decide)])
  · intro pre v rest hpre hvs
    obtain ⟨p2, o2, hs⟩ := regexDocScan_skip_ok_prefix pre hpre (("$options", v) :: rest) "" ""
    rw [_parseRegexDocument, hs]
    cases v <;> simp_all [BSONValue.btype] <;>
      (simp only [regexDocScan]
       rw [if_neg (by decide), if_pos (by decide)])

/-- Witness for C10: a numeric `$regex` after a well-typed prefix, a numeric
`$options`, the error-shape conjunct at that error, and a well-typed
document that assembles. -/
theorem C10_regex_document_type_errors_witness :
    _parseRegexDocument "a" [("x", .intV 1), ("$regex", .intV 1)] =
      .error ⟨.BadValue, "$regex has to be a string"⟩
    ∧ _parseRegexDocument "a" [("$options", .boolV true)] =
      .error ⟨.BadValue, "$options has to be a string"⟩
    ∧ (∃ m, _parseRegexDocument "a" [("$regex", .str "x"), ("$options", .str "i")] = .ok m) := by
  have h3 := (C10_regex_document_type_errors "a").2.2.1 [("x", .intV 1)] (.intV 1) []
    (by simp +decide [regexDocOK]) (by decide) (by decide)
  have h4 := (C10_regex_document_type_errors "a").2.2.2 [] (.boolV true) []
    (by simp) (by decide)
  have h1 := (C10_regex_document_type_errors "a").1 [("$regex", .str "x"), ("$options", .str "i")]
    (by simp +decide [regexDocOK, BSONValue.btype])
  exact ⟨h3, h4, h1⟩

end MatchExpressionParser

namespace MatchExpressionParser

/-- Counterexample to claim C6: the long `4294967296` (`2^32`) is
non-negative, so the claim promises `SIZE(a, 4294967296)`, but the code
narrows it through `numberInt` and builds `SIZE(a, 0)`. -/
theorem C6_size_int32_counterexample :
    _parseSubField defaultCallbacks [("$size", .longV 4294967296)] "a" "$size"
        (.longV 4294967296) 1 = .ok (some (.sizeE "a" 0))
    ∧ (0 : Int) < 4294967296 ∧ (4294967296 : Int) ≠ 0 := by
  refine ⟨?_, by decide, by decide⟩
  simp +decide [_parseSubField, _parseSubFieldLeaf, BSONValue.btype,
    BSONValue.numberLong, BSONValue.numberInt, wrap32]

/-- Claim C6, amended: for a `$size` argument, a string yields `SIZE 0`; an
int or long yields `SIZE (-1)` when negative and otherwise `SIZE` of the
value narrowed to `int32` (large longs wrap); a double yields `SIZE` of the
int32-narrowed truncation when that narrowed integer equals the double
exactly, else `SIZE (-1)`; every other type is the error
`$size needs a number`. -/
theorem C6_size_amended (cb : Callbacks) (context : BSONObj) (name : String) (level : Nat) :
    (∀ s, _parseSubField cb context name "$size" (.str s) level =
      .ok (some (.sizeE name 0)))
    ∧ (∀ n : Int, _parseSubField cb context name "$size" (.intV n) level =
        .ok (some (.sizeE name (if n < 0 then -1 else wrap32 n))))
    ∧ (∀ n : Int, _parseSubField cb context name "$size" (.longV n) level =
        .ok (some (.sizeE name (if n < 0 then -1 else wrap32 n))))
    ∧ (∀ q : ℚ, _parseSubField cb context name "$size" (.double q) level =
        .ok (some (.sizeE name
          (if (wrap32 (ratTrunc q) : ℚ) = q then wrap32 (ratTrunc q) else -1))))
    ∧ (∀ v : BSONValue, v.btype ≠ .string → v.btype ≠ .int32 → v.btype ≠ .int64 →
        v.btype ≠ .double →
        _parseSubField cb context name "$size" v level =
          .error ⟨.BadValue, "$size needs a number"⟩) := by
  refine ⟨?_, ?_, ?_, ?_, ?_⟩
  · intro s
    simp +decide [_parseSubField, _parseSubFieldLeaf, BSONValue.btype]
  · intro n
    simp +decide [_parseSubField, _parseSubFieldLeaf, BSONValue.btype,
      BSONValue.numberLong, BSONValue.numberInt]
    split <;> rfl
  · intro n
    simp +decide [_parseSubField, _parseSubFieldLeaf, BSONValue.btype,
      BSONValue.numberLong, BSONValue.numberInt]
    split <;> rfl
  · intro q
    simp +decide [_parseSubField, _parseSubFieldLeaf, BSONValue.btype,
      BSONValue.numberLong, BSONValue.numberInt, BSONValue.number]
    split <;> rfl
  · intro v h1 h2 h3 h4
    cases v <;> simp_all +decide [_parseSubField, _parseSubFieldLeaf, BSONValue.btype]

/-- Witness for the C6 amended theorem at concrete inputs: the spec's four
examples plus a boolean argument. -/
theorem C6_size_amended_witness :
    _parseSubField defaultCallbacks [] "a" "$size" (.str "foo") 1 =
      .ok (some (.sizeE "a" 0))
    ∧ _parseSubField defaultCallbacks [] "a" "$size" (.intV (-1)) 1 =
      .ok (some (.sizeE "a" (-1)))
    ∧ _parseSubField defaultCallbacks [] "a" "$size" (.double (5 / 2)) 1 =
      .ok (some (.sizeE "a" (-1)))
    ∧ _parseSubField defaultCallbacks [] "a" "$size" (.double 2) 1 =
      .ok (some (.sizeE "a" 2))
    ∧ _parseSubField defaultCallbacks [] "a" "$size" (.boolV true) 1 =
      .error ⟨.BadValue, "$size needs a number"⟩ := by
  obtain ⟨h1, h2, h3, h4, h5⟩ := C6_size_amended defaultCallbacks [] "a" 1
  refine ⟨h1 "foo", ?_, ?_, ?_, h5 (.boolV true) (by decide) (by decide) (by decide) (by decide)⟩
  · rw [h2 (-1)]
    norm_num
  · rw [h4 (5 / 2),
      if_neg (by norm_num [ratTrunc, wrap32, show Int.tdiv 5 2 = 2 from by decide])]
  · rw [h4 2, if_pos (by norm_num [ratTrunc, wrap32])]
    norm_num [ratTrunc, wrap32]

/-- Counterexample to claim C4: the dispatch condition is a conjunction, not
the claim's disjunction.  An embedded document under the non-geo key `$gt`
is parsed per-key (here into a GT leaf), and a geo key `$near` with a
scalar value falls through to the per-key loop and fails as an unknown
operator; in both cases the geo callback (which here would report that geo
is not linked in) is never consulted. -/
theorem C4_geo_peek_counterexample :
    _parseSub defaultCallbacks "a" [("$gt", .obj [("x", .intV 1)])] 0 =
      .ok [.gtE "a" (.obj [("x", .intV 1)])]
    ∧ _parseSub defaultCallbacks "a" [("$near", .intV 1)] 0 =
      .error ⟨.BadValue, "unknown operator: $near"⟩
    ∧ defaultCallbacks.geoCallback "a" (getGtLtOp "$gt" BSONOp.Equality)
        [("$gt", .obj [("x", .intV 1)])] = .error ⟨.BadValue, "geo not linked in"⟩
    ∧ defaultCallbacks.geoCallback "a" (getGtLtOp "$near" BSONOp.Equality)
        [("$near", .intV 1)] = .error ⟨.BadValue, "geo not linked in"⟩ := by
  refine ⟨?_, ?_, rfl, rfl⟩
  · simp +decide [_parseSub, _parseSubList, _parseSubField, _parseSubFieldLeaf,
      _parseComparison, compNode, BSONObj.firstFieldName, BSONObj.firstValue,
      BSONValue.isABSONObj, BSONValue.btype, getGtLtOp]
  · simp +decide [_parseSub, _parseSubList, _parseSubField, _parseSubFieldLeaf,
      BSONObj.firstFieldName, BSONObj.firstValue, BSONValue.isABSONObj,
      BSONValue.btype, getGtLtOp]

/-- Claim C4, amended: within the depth limit, `_parseSub` hands the whole
sub-document to the geo callback (returning one child on success and the
callback's error otherwise) exactly when the first element's value is an
embedded document or array AND its key is one of the five geo operators;
when that conjunction fails it runs the per-key loop instead. -/
theorem C4_geo_dispatch_amended (cb : Callbacks) (name : String) (sub : BSONObj)
    (level : Nat) (hd : ¬ level > kMaximumTreeDepth) :
    (((BSONObj.firstValue sub).isABSONObj &&
        (BSONObj.firstFieldName sub == "$near" || BSONObj.firstFieldName sub == "$nearSphere" ||
          BSONObj.firstFieldName sub == "$geoNear" || BSONObj.firstFieldName sub == "$maxDistance" ||
          BSONObj.firstFieldName sub == "$minDistance")) = true →
      _parseSub cb name sub level =
        match cb.geoCallback name (getGtLtOp (BSONObj.firstFieldName sub) BSONOp.Equality) sub with
        | .error e => .error e
        | .ok m => .ok [m])
    ∧ (((BSONObj.firstValue sub).isABSONObj &&
        (BSONObj.firstFieldName sub == "$near" || BSONObj.firstFieldName sub == "$nearSphere" ||
          BSONObj.firstFieldName sub == "$geoNear" || BSONObj.firstFieldName sub == "$maxDistance" ||
          BSONObj.firstFieldName sub == "$minDistance")) = false →
      _parseSub cb name sub level = _parseSubList cb sub sub name (level + 1)) := by
  constructor
  · intro h
    rw [_parseSub, if_neg hd]
    simp only []
    rw [if_pos h]
    all_goals rfl
  · intro h
    rw [_parseSub, if_neg hd]
    simp only []
    rw [if_neg (by simp [h])]

/-- Witness for the C4 amended theorem: a geo key over an embedded document
reaches the (default, failing) geo callback, and the same key over a scalar
goes to the per-key loop instead. -/
theorem C4_geo_dispatch_amended_witness :
    _parseSub defaultCallbacks "a" [("$near", .obj [])] 0 =
      .error ⟨.BadValue, "geo not linked in"⟩
    ∧ _parseSub defaultCallbacks "a" [("$near", .intV 1)] 0 =
      _parseSubList defaultCallbacks [("$near", .intV 1)] [("$near", .intV 1)] "a" 1 := by
  have h1 := (C4_geo_dispatch_amended defaultCallbacks "a" [("$near", .obj [])] 0
    (by decide)).1 (by decide)
  have h2 := (C4_geo_dispatch_amended defaultCallbacks "a" [("$near", .intV 1)] 0
    (by decide)).2 (by decide)
  exact ⟨by rw [h1]; rfl, h2⟩

end MatchExpressionParser

namespace MatchExpressionParser

/-- Nesting depth of the plain-literal tower: `litNest n` is a document
nested `n` levels deep. -/
theorem litNest_docDepth (n : Nat) : (litNest n).docDepth = n := by
  induction n with
  | zero => simp [litNest, BSONValue.docDepth]
  | succ n ih =>
    simp [litNest, BSONValue.docDepth, BSONObj.docDepthMax, ih]
    omega

/-- Counterexample to claim C3: a plain literal document nested 101 levels
deep exceeds the maximum tree depth, yet `parse` accepts it as a single
equality leaf — the depth guards sit only on the recursive descent, which
plain literals never enter. -/
theorem C3_depth_counterexample :
    BSONObj.docDepthMax [("a", litNest 101)] > kMaximumTreeDepth
    ∧ parse defaultCallbacks [("a", litNest 101)] = .ok (.eqE "a" (litNest 101)) := by
  constructor
  · simp [BSONObj.docDepthMax, litNest_docDepth, kMaximumTreeDepth]
  · have hl : litNest 101 = .obj [("b", litNest 100)] := rfl
    have h1 : _parseTopElement defaultCallbacks "a" (litNest 101) true 1 =
        .ok [.eqE "a" (litNest 101)] := by
      rw [hl]
      simp +decide [_parseTopElement, _isExpressionDocument, dollarPrefixed,
        BSONObj.firstFieldName]
    have h2 : _parseTopList defaultCallbacks [("a", litNest 101)] true 1 =
        .ok [.eqE "a" (litNest 101)] := by
      simp only [_parseTopList, h1]
      rfl
    rw [parse, _parse, if_neg (by decide)]
    norm_num [h2]

/-- Claim C3, amended: the depth guards hold where they exist — `_parse` and
`_parseSub` both reject at entry once the depth exceeds the maximum, and the
depth grows along every `$or` descent, so a `$or` tower taller than the
remaining budget is rejected.  (Plain literal nesting, by contrast, is not
depth-checked; see the counterexample.) -/
theorem C3_depth_checks_amended (cb : Callbacks) :
    (∀ obj level, level > kMaximumTreeDepth →
      _parse cb obj level = .error ⟨.BadValue,
        "exceeded maximum query tree depth of " ++ toString kMaximumTreeDepth ++
          " at " ++ BSONObj.toStr obj⟩)
    ∧ (∀ name sub level, level > kMaximumTreeDepth →
      _parseSub cb name sub level = .error ⟨.BadValue,
        "exceeded maximum query tree depth of " ++ toString kMaximumTreeDepth ++
          " at " ++ BSONObj.toStr sub⟩)
    ∧ (∀ n level, level + n > kMaximumTreeDepth →
        ∃ m, _parse cb (orNest n) level = .error ⟨.BadValue, m⟩) := by
  refine ⟨?_, ?_, ?_⟩
  · intro obj level h
    rw [_parse, if_pos h]
  · intro name sub level h
    rw [_parseSub, if_pos h]
  · intro n
    induction n with
    | zero =>
      intro level h
      rw [Nat.add_zero] at h
      exact ⟨_, by rw [_parse, if_pos h]⟩
    | succ n ih =>
      intro level h
      by_cases hl : level > kMaximumTreeDepth
      · exact ⟨_, by rw [_parse, if_pos hl]⟩
      · obtain ⟨m, hm⟩ := ih (level + 1) (by omega)
        have htr : _parseTreeList cb [.obj (orNest n)] (level + 1) =
            .error ⟨.BadValue, m⟩ := by
          simp only [_parseTreeList, hm]
        have hte : _parseTopElement cb "$or" (.arr [.obj (orNest n)]) (level == 0)
            (level + 1) = .error ⟨.BadValue, m⟩ := by
          simp +decide [_parseTopElement, dollarPrefixed, htr]
        have htl : _parseTopList cb (orNest (n + 1)) (level == 0) (level + 1) =
            .error ⟨.BadValue, m⟩ := by
          rw [show orNest (n + 1) = [("$or", .arr [.obj (orNest n)])] from rfl]
          simp only [_parseTopList, hte]
        exact ⟨m, by rw [_parse, if_neg hl, htl]⟩

/-- Witness for the C3 amended theorem: the two entry checks fire at depth
101 on the empty document, and a 101-deep `$or` tower is rejected from the
top. -/
theorem C3_depth_checks_amended_witness :
    _parse defaultCallbacks [] 101 = .error ⟨.BadValue,
      "exceeded maximum query tree depth of " ++ toString kMaximumTreeDepth ++
        " at " ++ BSONObj.toStr ([] : BSONObj)⟩
    ∧ _parseSub defaultCallbacks "a" [] 101 = .error ⟨.BadValue,
      "exceeded maximum query tree depth of " ++ toString kMaximumTreeDepth ++
        " at " ++ BSONObj.toStr ([] : BSONObj)⟩
    ∧ ∃ m, _parse defaultCallbacks (orNest 101) 0 = .error ⟨.BadValue, m⟩ := by
  obtain ⟨h1, h2, h3⟩ := C3_depth_checks_amended defaultCallbacks
  exact ⟨h1 [] 101 (by decide), h2 "a" [] 101 (by decide), h3 101 0 (by decide)⟩

end MatchExpressionParser
